import Mathlib

/-!
Shallow embedding of the SaveQuest challenge-evaluation core.

Sources embedded:
- `savequest-backend/src/utils/challengeRule.js` (the pure rule evaluator);
- `savequest-backend/src/services/challengeService.js` (the dated check-in
  revision, namespace `ChallengeService`);
- the simplified POC check-in revision of the same service (namespace `Poc`).

Modelling conventions:
- JS numbers carrying money are modelled as exact rationals (`ℚ`); the source
  uses binary floats, whose rounding is outside the scope of these claims.
- Instants (`Date.now()`, `joinedAt` ISO instants) are modelled as integer
  milliseconds since the epoch; an ISO `YYYY-MM-DD` date string is modelled as
  its UTC day index (milliseconds floor-divided by 86400000), so that the
  lexicographic comparisons of date strings become integer
  comparisons and `toIsoDate` becomes floor division.
- `undefined`/absent JS fields are `Option.none`; JS string truthiness
  (`s && ...`) is `strTruthy` (absent or empty string is falsy).
- The ambient wall clock (`new Date()`) is passed explicitly as `nowMs`.
- Firestore reads are passed in as arguments (enrollment record, template,
  transaction list); the single Firestore write an operation may perform is
  returned in the `write` field of the result, and the evaluation dates the
  operation consulted are returned in the `evaluatedDays` trace field.
- Apostrophes occurring inside two source message strings are omitted from
  the corresponding string literals.
-/

namespace SaveQuest

/-- Milliseconds in one day, the divisor used by the source for all
whole-day arithmetic. -/
def msPerDay : Int := 86400000

/-- Day index of the ISO date string of an instant:
`new Date(ms).toISOString().slice(0, 10)` keeps the UTC calendar date, i.e.
the floor of `ms / 86400000`. -/
def toIsoDate (ms : Int) : Int := Int.fdiv ms msPerDay

/-- Prefix test on character lists (structural, kernel-reducible). -/
def listPrefixOf : List Char → List Char → Bool
  | [], _ => true
  | _ :: _, [] => false
  | a :: as, b :: bs => a == b && listPrefixOf as bs

/-- Substring test on character lists: the pattern occurs at some position. -/
def listInfixOf : List Char → List Char → Bool
  | pat, [] => listPrefixOf pat []
  | pat, c :: rest => listPrefixOf pat (c :: rest) || listInfixOf pat rest

/-- JS `s.includes(pat)`: substring containment. -/
def strContains (s pat : String) : Bool := listInfixOf pat.data s.data

/-- JS truthiness of an optional string: `undefined` and `""` are falsy. -/
def strTruthy : Option String → Bool
  | none => false
  | some s => !(s.data.isEmpty)

/-- Lift a Boolean test over an optional value; `none` is falsy, matching a
JS optional chain `x?.f(...)`. -/
def optHas (p : α → Bool) : Option α → Bool
  | none => false
  | some a => p a

/-- Plaid `personal_finance_category`: two-level classification. -/
structure PersonalFinanceCategory where
  primary : Option String := none
  detailed : Option String := none
deriving Repr, DecidableEq

/-- Normalized transaction record as consumed by the evaluator. Dates are
day indices of the `YYYY-MM-DD` strings. -/
structure Transaction where
  amount : ℚ
  date : Option Int := none
  authorized_date : Option Int := none
  merchant_name : Option String := none
  personal_finance_category : Option PersonalFinanceCategory := none
deriving Repr, DecidableEq

/-- `txn.personal_finance_category?.detailed`. -/
def txnDetailed (txn : Transaction) : Option String :=
  txn.personal_finance_category.bind (·.detailed)

/-- `txn.personal_finance_category?.primary`. -/
def txnPrimary (txn : Transaction) : Option String :=
  txn.personal_finance_category.bind (·.primary)

/-- `txn.authorized_date || txn.date`: authorized date preferred. -/
def txnDateStr (txn : Transaction) : Option Int :=
  match txn.authorized_date with
  | some d => some d
  | none => txn.date

/-- `target` block of a challenge template. -/
structure Target where
  pfc_detailed : Option String := none
  pfc_primary : Option String := none
  merchants : Option (List String) := none
deriving Repr, DecidableEq

/-- `replacement` block of a challenge template. -/
structure Replacement where
  fromCategory : Option String := none
  toCategory : Option String := none
deriving Repr, DecidableEq

/-- Challenge template (catalog document as read by the service). -/
structure ChallengeTemplate where
  ruleType : String
  duration : Int
  title : String := ""
  target : Option Target := none
  capAmount : Option ℚ := none
  replacement : Option Replacement := none
deriving Repr, DecidableEq

/-- `template.target?.pfc_detailed`. -/
def tplDetailed (template : ChallengeTemplate) : Option String :=
  template.target.bind (·.pfc_detailed)

/-- `template.target?.pfc_primary`. -/
def tplPrimary (template : ChallengeTemplate) : Option String :=
  template.target.bind (·.pfc_primary)

/-- `template.target?.merchants`. -/
def tplMerchants (template : ChallengeTemplate) : Option (List String) :=
  template.target.bind (·.merchants)

/-- `challengeRule.js` `spendsBlockedCategory`: some transaction matches the
blocked detailed category (substring) or the blocked merchant list (exact
membership). -/
def spendsBlockedCategory (txns : List Transaction) (template : ChallengeTemplate) : Bool :=
  txns.any fun txn =>
    let matchesCategory :=
      strTruthy (tplDetailed template) &&
        optHas (fun c => optHas (fun d => strContains d c) (txnDetailed txn))
          (tplDetailed template)
    let matchesMerchant :=
      (tplMerchants template).isSome &&
        optHas (fun ms => optHas (fun m => ms.contains m) txn.merchant_name)
          (tplMerchants template)
    matchesCategory || matchesMerchant

/-- Filter predicate of `exceedsSpendCap`: transaction primary category
contains the configured `pfc_primary` (which must be truthy). -/
def spendCapMatches (template : ChallengeTemplate) (txn : Transaction) : Bool :=
  strTruthy (tplPrimary template) &&
    optHas (fun c => optHas (fun p => strContains p c) (txnPrimary txn))
      (tplPrimary template)

/-- `challengeRule.js` `exceedsSpendCap`: sum of absolute amounts of the
matching transactions, compared strictly against `capAmount || 0`. -/
def exceedsSpendCap (txns : List Transaction) (template : ChallengeTemplate) : Bool :=
  let total := (txns.filter (spendCapMatches template)).foldl
    (fun sum txn => sum + |txn.amount|) 0
  decide (total > template.capAmount.getD 0)

/-- `challengeRule.js` `missesReplacement`: with both categories configured,
the user fails unless they avoided the from-category entirely and performed
at least one to-category transaction; a missing category is reported as
broken (`return true; // Invalid template`). -/
def missesReplacement (txns : List Transaction) (template : ChallengeTemplate) : Bool :=
  let fromCategory := template.replacement.bind (·.fromCategory)
  let toCategory := template.replacement.bind (·.toCategory)
  if !(strTruthy fromCategory && strTruthy toCategory) then
    true
  else
    let avoided := txns.all fun txn =>
      !(optHas (fun fc => optHas (fun d => strContains d fc) (txnDetailed txn)) fromCategory)
    let didSwap := txns.any fun txn =>
      optHas (fun tc =>
        optHas (fun d => strContains d tc) (txnDetailed txn) ||
        optHas (fun p => strContains p tc) (txnPrimary txn)) toCategory
    !(avoided && didSwap)

/-- Target match of `breaksStreakGoal`: primary or detailed contains the
configured `pfc_primary`. -/
def streakMatchesTarget (template : ChallengeTemplate) (txn : Transaction) : Bool :=
  strTruthy (tplPrimary template) &&
    optHas (fun c =>
      optHas (fun p => strContains p c) (txnPrimary txn) ||
      optHas (fun d => strContains d c) (txnDetailed txn))
      (tplPrimary template)

/-- Days (of dated transactions matching the target) collected into the
`okDays` set of `breaksStreakGoal`. -/
def okDays (template : ChallengeTemplate) (txns : List Transaction) : List Int :=
  txns.filterMap fun txn =>
    match txnDateStr txn with
    | none => none
    | some d => if streakMatchesTarget template txn then some d else none

/-- `challengeRule.js` `breaksStreakGoal`: broken when any of the trailing
`template.duration || 7` days counted back from today lacks a qualifying
transaction. `today` models the ambient `new Date()` as a day index. -/
def breaksStreakGoal (today : Int) (txns : List Transaction) (template : ChallengeTemplate) : Bool :=
  let ok := okDays template txns
  let duration : Int := if template.duration == 0 then 7 else template.duration
  (List.range duration.toNat).any fun i => !(ok.contains (today - (i : Int)))

/-- `challengeRule.js` `evaluateRule`: dispatch on the rule type string; an
unknown rule type throws. The ambient clock `today` is consumed only by the
`streak_goal` branch. -/
def evaluateRule (today : Int) (ruleType : String) (txns : List Transaction)
    (template : ChallengeTemplate) : Except String Bool :=
  if ruleType = "spend_block" then .ok (spendsBlockedCategory txns template)
  else if ruleType = "spend_cap" then .ok (exceedsSpendCap txns template)
  else if ruleType = "replacement" then .ok (missesReplacement txns template)
  else if ruleType = "streak_goal" then .ok (breaksStreakGoal today txns template)
  else .error ("Unknown rule type: " ++ ruleType)

/-- Enrollment record (the Firestore user-challenge document). `joinedAt` is
an instant in milliseconds; `lastCheckIn` and the `checkIns` entries are
stored as `YYYY-MM-DD` strings, modelled as day indices; `failedAt` and
`completedAt` are instants. -/
structure ChallengeData where
  streak : Int
  lastCheckIn : Option Int := none
  checkIns : List Int := []
  joinedAt : Int
  status : String
  failedAt : Option Int := none
  failureReason : Option String := none
  completedAt : Option Int := none
deriving Repr, DecidableEq

/-- Result object of `evaluateChallenge`. JS error results simply lack the
verdict fields; reading them yields `undefined`, which is falsy, so the
defaults model the truthiness checks of the source (`todayEval.ruleBroken`). -/
structure EvalResult where
  success : Bool
  message : String := ""
  ruleBroken : Bool := false
  reason : String := ""
  evaluatedTransactions : Nat := 0
  violatedTransactions : List Transaction := []
deriving Repr, DecidableEq

/-- Violated-transaction extraction switch shared verbatim by both revisions
of `evaluateChallenge` (only reached when the rule is broken). -/
def violatedFor (template : ChallengeTemplate) (relevant : List Transaction) :
    List Transaction :=
  if template.ruleType = "spend_block" then
    relevant.filter fun txn =>
      (strTruthy (tplDetailed template) &&
        optHas (fun c => optHas (fun d => strContains d c) (txnDetailed txn))
          (tplDetailed template)) ||
      ((tplMerchants template).isSome &&
        optHas (fun ms => optHas (fun m => ms.contains m) txn.merchant_name)
          (tplMerchants template))
  else if template.ruleType = "spend_cap" then
    relevant.filter (spendCapMatches template)
  else if template.ruleType = "replacement" then
    relevant.filter fun txn =>
      strTruthy (template.replacement.bind (·.fromCategory)) &&
        optHas (fun fc => optHas (fun d => strContains d fc) (txnDetailed txn))
          (template.replacement.bind (·.fromCategory))
  else
    relevant

/-- `template.target?.pfc_detailed || template.target?.merchants?.join(...)
|| "unknown"` of the spend-block reason string. -/
def spendBlockReasonTarget (template : ChallengeTemplate) : String :=
  match tplDetailed template with
  | some c => if c.data.isEmpty then "unknown" else c
  | none =>
    match tplMerchants template with
    | some ms => String.intercalate ", " ms
    | none => "unknown"

/-- Reason string switch shared verbatim by both revisions of
`evaluateChallenge` (only reached when the rule is broken). Numeric and
optional fields are rendered with `toString`, standing in for JS template
interpolation. -/
def reasonFor (template : ChallengeTemplate) : String :=
  if template.ruleType = "spend_block" then
    "Spent on blocked category/merchant: " ++ spendBlockReasonTarget template
  else if template.ruleType = "spend_cap" then
    "Exceeded spending cap of $" ++ toString (template.capAmount.getD 0) ++
      " on " ++ toString (tplPrimary template)
  else if template.ruleType = "replacement" then
    "Failed to replace " ++ toString (template.replacement.bind (·.fromCategory)) ++
      " with " ++ toString (template.replacement.bind (·.toCategory))
  else if template.ruleType = "streak_goal" then
    "Missed daily goal for " ++ toString (tplPrimary template)
  else
    "Challenge rule was broken"

/-- Tail of `evaluateChallenge` from the `evaluateRule` call on, identical in
both revisions: run the rule, catch an evaluator throw as an error result,
otherwise report the verdict with evidence. -/
def finishEvaluation (nowMs : Int) (template : ChallengeTemplate)
    (relevant : List Transaction) : EvalResult :=
  match evaluateRule (toIsoDate nowMs) template.ruleType relevant template with
  | .error e =>
    { success := false, message := "Error evaluating challenge: " ++ e }
  | .ok ruleBroken =>
    { success := true
      ruleBroken := ruleBroken
      reason := if ruleBroken then reasonFor template else ""
      evaluatedTransactions := relevant.length
      violatedTransactions := if ruleBroken then violatedFor template relevant else [] }

/-- Specific-date filter of `evaluateChallenge`: transactions whose
(authorized, else posting) date equals the evaluation date. -/
def relevantForDate (txns : List Transaction) (evaluationDate : Int) : List Transaction :=
  txns.filter fun txn =>
    match txnDateStr txn with
    | none => false
    | some d => d == evaluationDate

/-- Result object of both `checkIn` revisions, with the persisted write and
the trace of evaluation dates (`none` = whole-window evaluation) added as
instrumentation of the effects. -/
structure CheckInResult where
  success : Bool
  message : String := ""
  challengeFailed : Bool := false
  streak : Option Int := none
  status : Option String := none
  write : Option ChallengeData := none
  evaluatedDays : List (Option Int) := []
deriving Repr, DecidableEq

namespace ChallengeService

/-- `challengeService.js` `evaluateChallenge`. Firestore reads are passed in:
the template (`none` = not found) and the stored transactions of the user. -/
def evaluateChallenge (nowMs : Int) (challengeTemplate : Option ChallengeTemplate)
    (transactions : List Transaction) (evaluationDate : Option Int) : EvalResult :=
  match challengeTemplate with
  | none => { success := false, message := "Challenge template not found." }
  | some template =>
    if transactions.isEmpty then
      { success := false
        message := "No transactions found. Please sync your transactions first." }
    else
      let relevant :=
        match evaluationDate with
        | some d => relevantForDate transactions d
        | none =>
          -- duration window: `template.duration || 7` days back from now
          let duration : Int := if template.duration == 0 then 7 else template.duration
          let cutoffIso := toIsoDate (nowMs - duration * msPerDay)
          transactions.filter fun txn =>
            match txnDateStr txn with
            | none => false
            | some d => d ≥ cutoffIso
      finishEvaluation nowMs template relevant

/-- Message of the settlement-lag rejection, interpolating the check-in date
and the lag (1 day). -/
def tooEarlyMessage (isoDate : Int) : String :=
  "Too early to confirm " ++ toString isoDate ++
    ". Transactions may still be pending. Please check in after 1 day(s) for transaction settlement."

/-- Message of the before-start rejection. -/
def beforeStartMessage (joinDateOnly : Int) : String :=
  "Cannot check in before challenge start date (" ++ toString joinDateOnly ++ ")."

/-- Message of the after-end rejection. -/
def challengeEndedMessage (duration : Int) (joinDateOnly : Int) : String :=
  "Challenge has ended. Valid period was " ++ toString duration ++ " days from " ++
    toString joinDateOnly ++ "."

/-- Gap-day loop of `checkIn` (`for d = lastCheck + 1; d < daysBetween`):
evaluate each missed day in order; stop at the first evaluation that is
unsuccessful or rule-broken. Returns the dates evaluated (in order) and the
stopping result, if any. -/
def runGapLoop (nowMs : Int) (template : ChallengeTemplate)
    (transactions : List Transaction) : List Int → List Int × Option EvalResult
  | [] => ([], none)
  | gapDate :: rest =>
    let res := evaluateChallenge nowMs (some template) transactions (some gapDate)
    if !res.success || res.ruleBroken then
      ([gapDate], some res)
    else
      let out := runGapLoop nowMs template transactions rest
      (gapDate :: out.1, out.2)

/-- `res.message || default`: JS falls back when the message is absent (the
empty string in this model). -/
def messageOr (res : EvalResult) (fallback : String) : String :=
  if res.message = "" then fallback else res.message

/-- Header and run of the gap-day loop of `checkIn`: `lastCheck` is the day
offset of the last check-in relative to the join date (−1 when none), and the
loop covers offsets `lastCheck + 1` up to (excluding) `daysBetween`, each
mapped to its calendar date `joinDateOnly + d`. -/
def gapStage (nowMs : Int) (template : ChallengeTemplate)
    (transactions : List Transaction) (data : ChallengeData)
    (joinDateOnly daysBetween : Int) : List Int × Option EvalResult :=
  let lastCheck : Int :=
    match data.lastCheckIn with
    | some lc => lc - joinDateOnly
    | none => -1
  runGapLoop nowMs template transactions
    ((List.range (daysBetween - (lastCheck + 1)).toNat).map
      fun i => joinDateOnly + lastCheck + 1 + (i : Int))

/-- `challengeService.js` `checkIn` (dated revision): settlement-lag guard,
duplicate guard, duration window guard, gap-day re-evaluation, evaluation of
the requested date, then streak update and persist. -/
def checkIn (nowMs : Int) (data? : Option ChallengeData)
    (challengeTemplate? : Option ChallengeTemplate) (transactions : List Transaction)
    (date : Int) : CheckInResult :=
  -- Settlement lag protection: latest confirmable date is one day back.
  let latestConfirmable := toIsoDate (nowMs - 1 * msPerDay)
  match data? with
  | none => { success := false, message := "User is not enrolled in this challenge." }
  | some data =>
  if data.status = "failed" then
    { success := false
      message := "This challenge has failed. Please rejoin to start over."
      challengeFailed := true }
  else
  let isoDate := date
  if isoDate > latestConfirmable then
    { success := false, message := tooEarlyMessage isoDate }
  else
  let checkIns := data.checkIns
  if checkIns.contains isoDate then
    { success := false, message := "Already checked in for this date." }
  else
  match challengeTemplate? with
  | none => { success := false, message := "Challenge template not found." }
  | some challengeTemplate =>
  let joinDateOnly := toIsoDate data.joinedAt
  -- floor((checkInDateObj - joinDateObj) / msPerDay): both are midnights,
  -- so the quotient is the exact difference of day indices.
  let daysDiff := isoDate - joinDateOnly
  if daysDiff < 0 then
    { success := false, message := beforeStartMessage joinDateOnly }
  else if daysDiff ≥ challengeTemplate.duration then
    { success := false, message := challengeEndedMessage challengeTemplate.duration joinDateOnly }
  else
  let daysBetween := daysDiff
  match gapStage nowMs challengeTemplate transactions data joinDateOnly daysBetween with
  | (gapTrace, some res) =>
    { success := false
      message := messageOr res
        "Rule violation detected on missed check-in dates. Challenge has been marked as failed. You must rejoin to start over."
      challengeFailed := true
      write := some { data with
        status := "failed"
        failedAt := some nowMs
        failureReason := some (messageOr res "Rule violation detected on missed check-in dates.") }
      evaluatedDays := gapTrace.map some }
  | (gapTrace, none) =>
  let todayEval := evaluateChallenge nowMs (some challengeTemplate) transactions (some isoDate)
  if todayEval.ruleBroken then
    { success := false
      message := messageOr todayEval
        "Rule violation detected for todays check-in. Challenge has been marked as failed. You must rejoin to start over."
      challengeFailed := true
      write := some { data with
        status := "failed"
        failedAt := some nowMs
        failureReason := some (messageOr todayEval "Rule violation detected for todays check-in.") }
      evaluatedDays := gapTrace.map some ++ [some isoDate] }
  else
  -- Streak: +1 on a consecutive day, reset to 1 after a gap or on the first
  -- check-in, otherwise unchanged.
  let streak :=
    match data.lastCheckIn with
    | some lastCheckIn =>
      let diff := isoDate - lastCheckIn
      if diff = 1 then data.streak + 1
      else if diff > 1 then 1
      else data.streak
    | none => 1
  { success := true
    message := "Check-in successful!"
    streak := some streak
    write := some { data with
      streak := streak
      lastCheckIn := some isoDate
      checkIns := checkIns ++ [isoDate] }
    evaluatedDays := gapTrace.map some ++ [some isoDate] }

end ChallengeService

namespace Poc

/-- POC revision of `evaluateChallenge`: identical to the dated revision
except that the whole-window branch runs from the join date of the enrollment to
`min(today, join + duration)` and therefore also reads the enrollment. -/
def evaluateChallenge (nowMs : Int) (challengeTemplate : Option ChallengeTemplate)
    (transactions : List Transaction) (challengeData? : Option ChallengeData)
    (evaluationDate : Option Int) : EvalResult :=
  match challengeTemplate with
  | none => { success := false, message := "Challenge template not found." }
  | some template =>
    if transactions.isEmpty then
      { success := false
        message := "No transactions found. Please sync your transactions first." }
    else
      match evaluationDate with
      | some d => finishEvaluation nowMs template (relevantForDate transactions d)
      | none =>
        match challengeData? with
        | none => { success := false, message := "User challenge data not found." }
        | some challengeData =>
          let joinDateOnly := toIsoDate challengeData.joinedAt
          let challengeEndMs := challengeData.joinedAt + template.duration * msPerDay
          let evaluateUntil :=
            if nowMs < challengeEndMs then toIsoDate nowMs else toIsoDate challengeEndMs
          let relevant := transactions.filter fun txn =>
            match txnDateStr txn with
            | none => false
            | some d => joinDateOnly ≤ d && d ≤ evaluateUntil
          finishEvaluation nowMs template relevant

/-- Detailed violation message of the POC `checkIn`: the reason, extended
with the first violating transaction when available. `toString` of the
amount stands in for JS `toFixed(2)` decimal rendering. -/
def detailedMessageFor (evaluation : EvalResult) : String :=
  let base := if evaluation.reason = "" then "Challenge rule violation detected"
    else evaluation.reason
  match evaluation.violatedTransactions with
  | [] => base
  | firstViolation :: _ =>
    base ++ ". First violation: $" ++ toString |firstViolation.amount| ++
      " at " ++ (firstViolation.merchant_name.getD "Unknown merchant") ++
      " on " ++ toString (txnDateStr firstViolation)

/-- POC revision of `checkIn` (`part_005`): no date argument; evaluates the
whole period when today is not yet past the end date, then persists status
`completed` when today is strictly past the end date, else `active`. -/
def checkIn (nowMs : Int) (data? : Option ChallengeData)
    (challengeTemplate? : Option ChallengeTemplate)
    (transactions : List Transaction) : CheckInResult :=
  match data? with
  | none => { success := false, message := "User is not enrolled in this challenge." }
  | some data =>
  if data.status = "failed" then
    { success := false
      message := "This challenge has failed. Please rejoin to start over."
      challengeFailed := true }
  else
  match challengeTemplate? with
  | none => { success := false, message := "Challenge template not found." }
  | some challengeTemplate =>
  let joinDate := data.joinedAt
  let todayOnly := toIsoDate nowMs
  let challengeEndOnly := toIsoDate (joinDate + challengeTemplate.duration * msPerDay)
  -- streak: min(days since join, duration)
  let daysSinceJoin := Int.fdiv (nowMs - joinDate) msPerDay
  let streak := min daysSinceJoin challengeTemplate.duration
  let isCompleted := decide (todayOnly > challengeEndOnly)
  let status := if isCompleted then "completed" else "active"
  let finish : CheckInResult :=
    { success := true
      status := some status
      streak := some streak
      message := if isCompleted then "Challenge completed successfully!"
        else "Check-in successful!"
      write := some { data with
        status := status
        streak := streak
        lastCheckIn := some todayOnly
        completedAt := if isCompleted then some nowMs else data.completedAt }
      evaluatedDays := if todayOnly ≤ challengeEndOnly then [none] else [] }
  if todayOnly ≤ challengeEndOnly then
    let evaluation := evaluateChallenge nowMs (some challengeTemplate) transactions
      (some data) none
    if !evaluation.success then
      -- Return error if evaluation failed (no write).
      { success := false, message := evaluation.message, evaluatedDays := [none] }
    else if evaluation.ruleBroken then
      let detailedMessage := detailedMessageFor evaluation
      { success := false
        message := "Challenge failed: " ++ detailedMessage ++ ". Please rejoin to start over."
        challengeFailed := true
        streak := some streak
        write := some { data with
          status := "failed"
          failedAt := some nowMs
          failureReason := some detailedMessage
          streak := streak }
        evaluatedDays := [none] }
    else
      finish
  else
    finish

end Poc

/-! Concrete fixtures used by the closed instances below. Day 20000 is an
arbitrary calendar day; instants are built from it in milliseconds. -/

/-- A spend-block template over the fast-food detailed category, 7 days. -/
def noFastFood7d : ChallengeTemplate :=
  { ruleType := "spend_block", duration := 7
    target := some { pfc_detailed := some "FOOD_AND_DRINK_FAST_FOOD" } }

/-- The same spend-block template with a 1-day duration. -/
def noFastFood1d : ChallengeTemplate :=
  { ruleType := "spend_block", duration := 1
    target := some { pfc_detailed := some "FOOD_AND_DRINK_FAST_FOOD" } }

/-- A fast-food transaction: its detailed category strictly extends the
target string of the template. -/
def burgerTxn : Transaction :=
  { amount := 12, date := some 20000
    merchant_name := some "Burger Palace"
    personal_finance_category := some
      { primary := some "FOOD_AND_DRINK"
        detailed := some "FOOD_AND_DRINK_FAST_FOOD_BURGERS" } }

/-- A grocery transaction on day 20000, matching nothing fast-food. -/
def groceryTxn : Transaction :=
  { amount := 30, date := some 20000
    merchant_name := some "Grocer"
    personal_finance_category := some
      { primary := some "GENERAL_MERCHANDISE"
        detailed := some "GENERAL_MERCHANDISE_SUPERSTORES" } }

/-- An enrollment freshly joined at midnight of day 20000. -/
def freshEnrollment : ChallengeData :=
  { streak := 0, joinedAt := 20000 * msPerDay, status := "active" }

/-- Noon of day 20000 (the join day itself). -/
def noonOfJoinDay : Int := 20000 * msPerDay + 43200000

/-- A spend-cap template capping the FOOD_AND_DRINK primary at 50 dollars. -/
def cap50Template : ChallengeTemplate :=
  { ruleType := "spend_cap", duration := 7
    target := some { pfc_primary := some "FOOD_AND_DRINK" }
    capAmount := some 50 }

/-- A matching transaction of exactly 50 dollars. -/
def fiftyTxn : Transaction :=
  { amount := 50
    personal_finance_category := some { primary := some "FOOD_AND_DRINK" } }

/-- A matching transaction of 50.01 dollars. -/
def fiftyOhOneTxn : Transaction :=
  { amount := 50.01
    personal_finance_category := some { primary := some "FOOD_AND_DRINK" } }

/-- A matching credit (refund) of 50.01 dollars. -/
def refundFiftyOhOneTxn : Transaction :=
  { amount := -50.01
    personal_finance_category := some { primary := some "FOOD_AND_DRINK" } }

/-- A replacement template: swap fast food for coffee shops. -/
def swapTemplate : ChallengeTemplate :=
  { ruleType := "replacement", duration := 7
    replacement := some
      { fromCategory := some "FOOD_AND_DRINK_FAST_FOOD"
        toCategory := some "FOOD_AND_DRINK_COFFEE" } }

/-- A replacement template whose parameter block is absent entirely. -/
def emptyReplacementTemplate : ChallengeTemplate :=
  { ruleType := "replacement", duration := 7 }

/-- A coffee transaction (the to-category of `swapTemplate`). -/
def coffeeTxn : Transaction :=
  { amount := 5, date := some 20000
    personal_finance_category := some
      { primary := some "FOOD_AND_DRINK"
        detailed := some "FOOD_AND_DRINK_COFFEE_SHOPS" } }

/-- A transaction whose primary (but not detailed) category extends the
fast-food target string. -/
def primaryOnlyTxn : Transaction :=
  { amount := 8, date := some 20000
    personal_finance_category := some
      { primary := some "FOOD_AND_DRINK_FAST_FOOD_BURGERS"
        detailed := some "GENERAL_SERVICES" } }

/-- A streak-goal template over the FOOD_AND_DRINK primary, 1 day. -/
def streak1dTemplate : ChallengeTemplate :=
  { ruleType := "streak_goal", duration := 1
    target := some { pfc_primary := some "FOOD_AND_DRINK" } }

/-- A replacement template with only the from-category configured. -/
def noToTemplate : ChallengeTemplate :=
  { ruleType := "replacement", duration := 7
    replacement := some { fromCategory := some "FOOD_AND_DRINK_FAST_FOOD" } }

/-- A spend-cap template with a cap but no category filter. -/
def noFilterCapTemplate : ChallengeTemplate :=
  { ruleType := "spend_cap", duration := 7, capAmount := some 50 }

/-- An enrollment three days into a challenge with a check-in streak of 5,
last checked in on day 20000. -/
def midEnrollment : ChallengeData :=
  { streak := 5, lastCheckIn := some 20000, checkIns := [20000]
    joinedAt := 20000 * msPerDay, status := "active" }

/-- An instant three days (and a bit) after the join day of
`freshEnrollment`. -/
def threeDaysInInstant : Int := 20003 * msPerDay + 7000

/-! Helper lemmas about the truthiness and optional-chaining combinators. -/

theorem optHas_eq_true {α : Type} (p : α → Bool) (o : Option α) :
    optHas p o = true ↔ ∃ a, o = some a ∧ p a = true := by
  cases o <;> simp [optHas]

theorem optHas_eq_false {α : Type} (p : α → Bool) (o : Option α) :
    optHas p o = false ↔ ∀ a, o = some a → p a = false := by
  cases o <;> simp [optHas]

theorem strTruthy_some (s : String) : strTruthy (some s) = true ↔ s ≠ "" := by
  cases s with
  | mk l =>
    cases l with
    | nil => simp [strTruthy]
    | cons c cs =>
      simp only [strTruthy, List.isEmpty_cons, Bool.not_false, true_iff]
      intro h
      exact absurd (congrArg String.data h) (by simp)

theorem strTruthy_eq_true (o : Option String) :
    strTruthy o = true ↔ ∃ s, o = some s ∧ s ≠ "" := by
  cases o with
  | none => simp [strTruthy]
  | some s => simp [strTruthy_some s]

theorem foldl_add_abs (l : List Transaction) (init : ℚ) :
    l.foldl (fun sum txn => sum + |txn.amount|) init =
      init + (l.map fun txn => |txn.amount|).sum := by
  induction l generalizing init with
  | nil => simp
  | cons h t ih => simp [List.foldl_cons, ih, List.sum_cons]; ring

/-- C4 counterexample: a transaction set containing both a from-category hit
and a to-category hit evaluates to broken (`missesReplacement = true`),
contradicting the claim that both-present evaluates to not broken. -/
theorem missesReplacement_both_legs_broken :
    strContains "FOOD_AND_DRINK_FAST_FOOD_BURGERS" "FOOD_AND_DRINK_FAST_FOOD" = true ∧
    strContains "FOOD_AND_DRINK_COFFEE_SHOPS" "FOOD_AND_DRINK_COFFEE" = true ∧
    missesReplacement [burgerTxn, coffeeTxn] swapTemplate = true :=
  ⟨by decide, by decide, by decide⟩

/-- C4 (amended): with both categories configured and nonempty, the
replacement rule is NOT broken exactly when the window has zero from-category
matches and at least one to-category match; hence from-only is broken,
to-only is not broken, both present is broken, and neither present is
broken. -/
theorem missesReplacement_false_iff (txns : List Transaction)
    (template : ChallengeTemplate) (fc tc : String)
    (hfrom : template.replacement.bind (·.fromCategory) = some fc)
    (hto : template.replacement.bind (·.toCategory) = some tc)
    (hfc : fc ≠ "") (htc : tc ≠ "") :
    missesReplacement txns template = false ↔
      ((∀ t ∈ txns, ∀ d, txnDetailed t = some d → strContains d fc = false) ∧
       (∃ t ∈ txns,
         (∃ d, txnDetailed t = some d ∧ strContains d tc = true) ∨
         (∃ p, txnPrimary t = some p ∧ strContains p tc = true))) := by
  have h1 : strTruthy (some fc) = true := (strTruthy_some fc).mpr hfc
  have h2 : strTruthy (some tc) = true := (strTruthy_some tc).mpr htc
  rw [missesReplacement]
  rw [hfrom, hto]
  simp only [h1, h2, Bool.and_self, Bool.not_true, Bool.false_eq_true, if_false,
    Bool.not_eq_false', Bool.and_eq_true, List.all_eq_true, List.any_eq_true,
    Bool.not_eq_true', optHas_eq_false, optHas_eq_true, Bool.or_eq_true,
    Option.some.injEq, forall_eq', exists_eq_left']

/-- C4 witness: the characterization instantiated at a to-category-only
transaction set. -/
theorem missesReplacement_false_iff_witness :
    missesReplacement [coffeeTxn] swapTemplate = false ↔
      ((∀ t ∈ [coffeeTxn], ∀ d, txnDetailed t = some d →
          strContains d "FOOD_AND_DRINK_FAST_FOOD" = false) ∧
       (∃ t ∈ [coffeeTxn],
         (∃ d, txnDetailed t = some d ∧ strContains d "FOOD_AND_DRINK_COFFEE" = true) ∨
         (∃ p, txnPrimary t = some p ∧ strContains p "FOOD_AND_DRINK_COFFEE" = true))) :=
  missesReplacement_false_iff [coffeeTxn] swapTemplate
    "FOOD_AND_DRINK_FAST_FOOD" "FOOD_AND_DRINK_COFFEE" (by decide) (by decide)
    (by decide) (by decide)

/-- C5: the spend_cap total is the sum of the absolute values of the amounts
of the transactions matching the category filter, and the rule is broken
exactly when that total strictly exceeds the cap; matching spend of exactly
50 dollars against a 50-dollar cap is not broken, 50.01 is broken, and a
50.01-dollar credit (negative amount) is likewise broken, so refunds add to
the total rather than offsetting it. -/
theorem exceedsSpendCap_absolute_sum_strict_cap :
    (∀ (txns : List Transaction) (template : ChallengeTemplate),
      exceedsSpendCap txns template = true ↔
        ((txns.filter (spendCapMatches template)).map fun txn => |txn.amount|).sum >
          template.capAmount.getD 0) ∧
    exceedsSpendCap [fiftyTxn] cap50Template = false ∧
    exceedsSpendCap [fiftyOhOneTxn] cap50Template = true ∧
    exceedsSpendCap [refundFiftyOhOneTxn] cap50Template = true := by
  have hiff : ∀ (txns : List Transaction) (template : ChallengeTemplate),
      exceedsSpendCap txns template = true ↔
        ((txns.filter (spendCapMatches template)).map fun txn => |txn.amount|).sum >
          template.capAmount.getD 0 := by
    intro txns template
    rw [exceedsSpendCap]
    simp [foldl_add_abs]
  refine ⟨hiff, ?_, ?_, ?_⟩
  · rw [Bool.eq_false_iff, Ne, hiff]
    have hm : spendCapMatches cap50Template fiftyTxn = true := by decide
    have hf : List.filter (spendCapMatches cap50Template) [fiftyTxn] = [fiftyTxn] := by
      rw [List.filter_cons, hm]; rfl
    rw [hf]
    norm_num [fiftyTxn, cap50Template]
  · rw [hiff]
    have hm : spendCapMatches cap50Template fiftyOhOneTxn = true := by decide
    have hf : List.filter (spendCapMatches cap50Template) [fiftyOhOneTxn] = [fiftyOhOneTxn] := by
      rw [List.filter_cons, hm]; rfl
    rw [hf]
    norm_num [fiftyOhOneTxn, cap50Template]
    rw [abs_of_pos (show (0 : ℚ) < 5001 / 100 by norm_num)]
    norm_num
  · rw [hiff]
    have hm : spendCapMatches cap50Template refundFiftyOhOneTxn = true := by decide
    have hf : List.filter (spendCapMatches cap50Template) [refundFiftyOhOneTxn] =
        [refundFiftyOhOneTxn] := by
      rw [List.filter_cons, hm]; rfl
    rw [hf]
    norm_num [refundFiftyOhOneTxn, cap50Template]
    rw [abs_of_pos (show (0 : ℚ) < 5001 / 100 by norm_num)]
    norm_num

/-- C7 counterexample: evaluating the replacement rule with an absent
parameter block returns the verdict broken = true, not an evaluator-level
error. -/
theorem evaluateRule_misconfigured_replacement_verdict :
    evaluateRule 0 "replacement" [] emptyReplacementTemplate = .ok true := rfl

/-- C7 (amended): parameter shapes that do not match the declared rule type
do not fail fast: replacement with a missing or empty from- or to-category
returns the verdict broken = true, and spend_cap with a missing category
filter returns the verdict broken = false whenever its cap is nonnegative;
neither produces an error. -/
theorem evaluateRule_misconfigured_yields_verdicts :
    (∀ (today : Int) (txns : List Transaction) (template : ChallengeTemplate),
      strTruthy (template.replacement.bind (·.fromCategory)) = false ∨
        strTruthy (template.replacement.bind (·.toCategory)) = false →
      evaluateRule today "replacement" txns template = .ok true) ∧
    (∀ (today : Int) (txns : List Transaction) (template : ChallengeTemplate),
      strTruthy (tplPrimary template) = false →
      0 ≤ template.capAmount.getD 0 →
      evaluateRule today "spend_cap" txns template = .ok false) := by
  constructor
  · intro today txns template h
    have hguard : (strTruthy (template.replacement.bind (·.fromCategory)) &&
        strTruthy (template.replacement.bind (·.toCategory))) = false := by
      rcases h with h | h <;> simp [h]
    simp [evaluateRule, missesReplacement, hguard]
  · intro today txns template hp hc
    have hfilter : txns.filter (spendCapMatches template) = [] := by
      rw [List.filter_eq_nil_iff]
      intro t ht
      simp [spendCapMatches, hp]
    simp [evaluateRule, exceedsSpendCap, hfilter, decide_eq_false_iff_not, not_lt, hc]

/-- C7 witness: the two misconfigured-template verdicts at concrete
templates. -/
theorem evaluateRule_misconfigured_yields_verdicts_witness :
    evaluateRule 5 "replacement" [coffeeTxn] noToTemplate = .ok true ∧
    evaluateRule 5 "spend_cap" [coffeeTxn] noFilterCapTemplate = .ok false :=
  ⟨evaluateRule_misconfigured_yields_verdicts.1 5 [coffeeTxn] noToTemplate (Or.inr (by decide)),
   evaluateRule_misconfigured_yields_verdicts.2 5 [coffeeTxn] noFilterCapTemplate (by decide)
    (by norm_num [noFilterCapTemplate])⟩

/-- C8 counterexample: a transaction whose primary (but not detailed)
category contains the spend_block target does not match, and the rule is not
broken, contradicting the claim that the detailed OR primary category is
consulted. -/
theorem spendBlock_primary_not_consulted :
    strContains "FOOD_AND_DRINK_FAST_FOOD_BURGERS" "FOOD_AND_DRINK_FAST_FOOD" = true ∧
    txnPrimary primaryOnlyTxn = some "FOOD_AND_DRINK_FAST_FOOD_BURGERS" ∧
    spendsBlockedCategory [primaryOnlyTxn] noFastFood7d = false :=
  ⟨by decide, by decide, by decide⟩

theorem strTruthy_none : strTruthy none = false := rfl

/-- Characterization of the per-transaction match of `spendsBlockedCategory`:
detailed-category substring containment (when a nonempty target is
configured) or exact merchant-list membership. -/
theorem spendBlock_txn_iff (template : ChallengeTemplate) (t : Transaction) :
    ((strTruthy (tplDetailed template) &&
       optHas (fun c => optHas (fun d => strContains d c) (txnDetailed t)) (tplDetailed template)) ||
     ((tplMerchants template).isSome &&
       optHas (fun ms => optHas (fun m => ms.contains m) t.merchant_name) (tplMerchants template))) = true ↔
      ((∃ c, tplDetailed template = some c ∧ c ≠ "" ∧
          ∃ d, txnDetailed t = some d ∧ strContains d c = true) ∨
       (∃ ms, tplMerchants template = some ms ∧
          ∃ m, t.merchant_name = some m ∧ m ∈ ms)) := by
  cases hd : tplDetailed template with
  | none =>
    cases hm : tplMerchants template with
    | none => simp [strTruthy_none, optHas_eq_true]
    | some ms => simp [strTruthy_none, optHas_eq_true, decide_eq_true_eq]
  | some c =>
    cases hm : tplMerchants template with
    | none => simp [strTruthy_some, optHas_eq_true, decide_eq_true_eq, and_assoc]
    | some ms => simp [strTruthy_some, optHas_eq_true, decide_eq_true_eq, and_assoc]

/-- C8 (amended): spend_block is broken exactly when some transaction in the
window matches the target by substring containment on its DETAILED category
(the primary category is not consulted) or by exact merchant membership; in
particular the detailed category FOOD_AND_DRINK_FAST_FOOD_BURGERS matches
the target FOOD_AND_DRINK_FAST_FOOD and breaks the rule. -/
theorem spendsBlockedCategory_match_characterization :
    (∀ (txns : List Transaction) (template : ChallengeTemplate),
      spendsBlockedCategory txns template = true ↔
        ∃ t ∈ txns,
          ((∃ c, tplDetailed template = some c ∧ c ≠ "" ∧
              ∃ d, txnDetailed t = some d ∧ strContains d c = true) ∨
           (∃ ms, tplMerchants template = some ms ∧
              ∃ m, t.merchant_name = some m ∧ m ∈ ms))) ∧
    spendsBlockedCategory [burgerTxn] noFastFood7d = true := by
  constructor
  · intro txns template
    rw [spendsBlockedCategory, List.any_eq_true]
    constructor
    · rintro ⟨t, ht, hmatch⟩
      exact ⟨t, ht, (spendBlock_txn_iff template t).mp hmatch⟩
    · rintro ⟨t, ht, hmatch⟩
      exact ⟨t, ht, (spendBlock_txn_iff template t).mpr hmatch⟩
  · decide

/-- C9 counterexample: the same rule type, transaction set and parameters
evaluate to different verdicts at two invocation times for streak_goal, so
evaluation is not a function of the given inputs alone. -/
theorem evaluateRule_streak_goal_clock_dependent :
    evaluateRule 20000 "streak_goal" [burgerTxn] streak1dTemplate = .ok false ∧
    evaluateRule 20001 "streak_goal" [burgerTxn] streak1dTemplate = .ok true :=
  ⟨rfl, rfl⟩

/-- C9 (amended): for every rule type other than streak_goal, the evaluation
result does not depend on the ambient clock: two invocations at different
times yield identical results (verdict and error alike). -/
theorem evaluateRule_clock_free_without_streak_goal (today₁ today₂ : Int)
    (ruleType : String) (txns : List Transaction) (template : ChallengeTemplate)
    (h : ruleType ≠ "streak_goal") :
    evaluateRule today₁ ruleType txns template =
      evaluateRule today₂ ruleType txns template := by
  unfold evaluateRule
  split_ifs <;> rfl

/-- C9 witness: clock-independence of spend_block at two concrete
instants. -/
theorem evaluateRule_clock_free_without_streak_goal_witness :
    evaluateRule 0 "spend_block" [burgerTxn] noFastFood7d =
      evaluateRule 99 "spend_block" [burgerTxn] noFastFood7d :=
  evaluateRule_clock_free_without_streak_goal 0 99 "spend_block" [burgerTxn]
    noFastFood7d (by decide)

/-- Helper: a successful run of the POC `checkIn` persists exactly the
finish record: completion status decided strictly past the end date, the
min-of-days streak, and the current day as last check-in. -/
theorem poc_checkIn_success_write (nowMs : Int) (data : ChallengeData)
    (template : ChallengeTemplate) (transactions : List Transaction)
    (hsucc : (Poc.checkIn nowMs (some data) (some template) transactions).success = true) :
    (Poc.checkIn nowMs (some data) (some template) transactions).write =
      some { data with
        status :=
          if toIsoDate (data.joinedAt + template.duration * msPerDay) < toIsoDate nowMs
          then "completed" else "active"
        streak := min (Int.fdiv (nowMs - data.joinedAt) msPerDay) template.duration
        lastCheckIn := some (toIsoDate nowMs)
        completedAt :=
          if toIsoDate (data.joinedAt + template.duration * msPerDay) < toIsoDate nowMs
          then some nowMs else data.completedAt } := by
  simp only [Poc.checkIn] at hsucc ⊢
  by_cases hf : data.status = "failed"
  · rw [if_pos hf] at hsucc
    simp at hsucc
  · rw [if_neg hf] at hsucc ⊢
    by_cases hle : toIsoDate nowMs ≤ toIsoDate (data.joinedAt + template.duration * msPerDay)
    · rw [if_pos hle] at hsucc ⊢
      cases hes : (Poc.evaluateChallenge nowMs (some template) transactions
          (some data) none).success with
      | false => simp [hes] at hsucc
      | true =>
        cases hrb : (Poc.evaluateChallenge nowMs (some template) transactions
            (some data) none).ruleBroken with
        | true => simp [hes, hrb] at hsucc
        | false =>
          have hgt : ¬ toIsoDate (data.joinedAt + template.duration * msPerDay) <
              toIsoDate nowMs := not_lt.mpr hle
          simp [hes, hrb, decide_eq_true_eq, hgt, hle]
    · rw [if_neg hle] at hsucc ⊢
      have hgt : toIsoDate (data.joinedAt + template.duration * msPerDay) <
          toIsoDate nowMs := not_le.mp hle
      simp [decide_eq_true_eq, hgt, hle]

/-- Helper: a successful run of the dated `checkIn` persists exactly the
consecutive-day streak update, the check-in date, and the appended check-in
list, leaving the status untouched. -/
theorem sv_checkIn_success_write (nowMs : Int) (data : ChallengeData)
    (challengeTemplate? : Option ChallengeTemplate) (transactions : List Transaction)
    (date : Int)
    (hsucc : (ChallengeService.checkIn nowMs (some data) challengeTemplate? transactions
      date).success = true) :
    (ChallengeService.checkIn nowMs (some data) challengeTemplate? transactions date).write =
      some { data with
        streak :=
          match data.lastCheckIn with
          | some lastCheckIn =>
            if date - lastCheckIn = 1 then data.streak + 1
            else if date - lastCheckIn > 1 then 1
            else data.streak
          | none => 1
        lastCheckIn := some date
        checkIns := data.checkIns ++ [date] } := by
  simp only [ChallengeService.checkIn] at hsucc ⊢
  by_cases h1 : data.status = "failed"
  · rw [if_pos h1] at hsucc
    simp at hsucc
  · rw [if_neg h1] at hsucc ⊢
    by_cases h2 : date > toIsoDate (nowMs - 1 * msPerDay)
    · rw [if_pos h2] at hsucc
      simp at hsucc
    · rw [if_neg h2] at hsucc ⊢
      by_cases h3 : data.checkIns.contains date = true
      · rw [if_pos h3] at hsucc
        simp at hsucc
      · rw [if_neg h3] at hsucc ⊢
        cases challengeTemplate? with
        | none => simp at hsucc
        | some challengeTemplate =>
          dsimp only at hsucc ⊢
          by_cases h4 : date - toIsoDate data.joinedAt < 0
          · rw [if_pos h4] at hsucc
            simp at hsucc
          · rw [if_neg h4] at hsucc ⊢
            by_cases h5 : date - toIsoDate data.joinedAt ≥ challengeTemplate.duration
            · rw [if_pos h5] at hsucc
              simp at hsucc
            · rw [if_neg h5] at hsucc ⊢
              rcases hgl : ChallengeService.gapStage nowMs challengeTemplate transactions data
                  (toIsoDate data.joinedAt) (date - toIsoDate data.joinedAt) with ⟨gapTrace, out⟩
              rw [hgl] at hsucc
              cases out with
              | some res => simp at hsucc
              | none =>
                dsimp only at hsucc ⊢
                cases hrb : (ChallengeService.evaluateChallenge nowMs (some challengeTemplate)
                    transactions (some date)).ruleBroken with
                | true => simp [hrb] at hsucc
                | false => simp [hrb]

/-- C1 counterexample: a POC check-in at noon of the final (and only) day of
a 1-day challenge with no violation succeeds but persists status active, not
completed. -/
theorem poc_checkIn_final_day_stays_active :
    (Poc.checkIn noonOfJoinDay (some freshEnrollment) (some noFastFood1d) [groceryTxn]).success
        = true ∧
    (Poc.checkIn noonOfJoinDay (some freshEnrollment) (some noFastFood1d) [groceryTxn]).status
        = some "active" ∧
    (Poc.checkIn noonOfJoinDay (some freshEnrollment) (some noFastFood1d)
        [groceryTxn]).write.map (fun w => w.status) ≠ some "completed" :=
  ⟨by decide, by decide, by decide⟩

/-- C1 (amended): a successful POC check-in persists status completed
exactly when the current day is strictly later than the challenge end date
(join date plus duration days), and active otherwise — so the final day of
the duration still persists active; a successful dated check-in never
changes the persisted status at all. -/
theorem checkIn_completed_only_strictly_after_end :
    (∀ (nowMs : Int) (data : ChallengeData) (template : ChallengeTemplate)
        (transactions : List Transaction),
      (Poc.checkIn nowMs (some data) (some template) transactions).success = true →
      (Poc.checkIn nowMs (some data) (some template) transactions).write.map
          (fun w => w.status) =
        some (if toIsoDate (data.joinedAt + template.duration * msPerDay) < toIsoDate nowMs
          then "completed" else "active")) ∧
    (∀ (nowMs : Int) (data : ChallengeData) (challengeTemplate? : Option ChallengeTemplate)
        (transactions : List Transaction) (date : Int),
      (ChallengeService.checkIn nowMs (some data) challengeTemplate? transactions
          date).success = true →
      (ChallengeService.checkIn nowMs (some data) challengeTemplate? transactions
          date).write.map (fun w => w.status) = some data.status) := by
  constructor
  · intro nowMs data template transactions hsucc
    rw [poc_checkIn_success_write nowMs data template transactions hsucc]
    simp
  · intro nowMs data challengeTemplate? transactions date hsucc
    rw [sv_checkIn_success_write nowMs data challengeTemplate? transactions date hsucc]
    simp

/-- C1 witness: the completion rule applied to a concrete mid-challenge POC
check-in and a concrete successful dated check-in. -/
theorem checkIn_completed_only_strictly_after_end_witness :
    (Poc.checkIn threeDaysInInstant (some freshEnrollment) (some noFastFood7d)
        [groceryTxn]).write.map (fun w => w.status) =
      some (if toIsoDate (freshEnrollment.joinedAt + noFastFood7d.duration * msPerDay) <
          toIsoDate threeDaysInInstant then "completed" else "active") ∧
    (ChallengeService.checkIn (20002 * msPerDay) (some midEnrollment) (some noFastFood7d)
        [groceryTxn] 20001).write.map (fun w => w.status) = some midEnrollment.status :=
  ⟨checkIn_completed_only_strictly_after_end.1 threeDaysInInstant freshEnrollment
      noFastFood7d [groceryTxn] (by decide),
   checkIn_completed_only_strictly_after_end.2 (20002 * msPerDay) midEnrollment
      (some noFastFood7d) [groceryTxn] 20001 (by decide)⟩

/-- C2 counterexample: a successful POC check-in on the join day (elapsed
whole days = 0) persists streak 0, not min(elapsed days + 1, duration) = 1
as the claim states. -/
theorem poc_checkIn_streak_without_plus_one :
    (Poc.checkIn noonOfJoinDay (some freshEnrollment) (some noFastFood7d) [groceryTxn]).success
        = true ∧
    Int.fdiv (noonOfJoinDay - freshEnrollment.joinedAt) msPerDay = 0 ∧
    (Poc.checkIn noonOfJoinDay (some freshEnrollment) (some noFastFood7d)
        [groceryTxn]).write.map (fun w => w.streak) = some 0 ∧
    (Poc.checkIn noonOfJoinDay (some freshEnrollment) (some noFastFood7d)
        [groceryTxn]).write.map (fun w => w.streak) ≠
      some (min (Int.fdiv (noonOfJoinDay - freshEnrollment.joinedAt) msPerDay + 1)
        noFastFood7d.duration) :=
  ⟨by decide, by decide, by decide, by decide⟩

/-- C2 (amended): a successful POC check-in persists
streak = min(elapsed whole days since joinedAt, duration), with no +1; a
successful dated check-in instead persists the consecutive-day streak: 1 on
a first check-in, previous + 1 when exactly one day after the last
check-in, reset to 1 after a longer gap, unchanged otherwise. -/
theorem checkIn_persisted_streak_formulas :
    (∀ (nowMs : Int) (data : ChallengeData) (template : ChallengeTemplate)
        (transactions : List Transaction),
      (Poc.checkIn nowMs (some data) (some template) transactions).success = true →
      (Poc.checkIn nowMs (some data) (some template) transactions).write.map
          (fun w => w.streak) =
        some (min (Int.fdiv (nowMs - data.joinedAt) msPerDay) template.duration)) ∧
    (∀ (nowMs : Int) (data : ChallengeData) (challengeTemplate? : Option ChallengeTemplate)
        (transactions : List Transaction) (date : Int),
      (ChallengeService.checkIn nowMs (some data) challengeTemplate? transactions
          date).success = true →
      (ChallengeService.checkIn nowMs (some data) challengeTemplate? transactions
          date).write.map (fun w => w.streak) =
        some (match data.lastCheckIn with
          | some lastCheckIn =>
            if date - lastCheckIn = 1 then data.streak + 1
            else if date - lastCheckIn > 1 then 1
            else data.streak
          | none => 1)) := by
  constructor
  · intro nowMs data template transactions hsucc
    rw [poc_checkIn_success_write nowMs data template transactions hsucc]
    simp
  · intro nowMs data challengeTemplate? transactions date hsucc
    rw [sv_checkIn_success_write nowMs data challengeTemplate? transactions date hsucc]
    simp

/-- C2 witness: the streak formulas at a concrete three-day-old POC
enrollment and a concrete consecutive dated check-in. -/
theorem checkIn_persisted_streak_formulas_witness :
    (Poc.checkIn threeDaysInInstant (some freshEnrollment) (some noFastFood1d)
        [groceryTxn]).write.map (fun w => w.streak) =
      some (min (Int.fdiv (threeDaysInInstant - freshEnrollment.joinedAt) msPerDay)
        noFastFood1d.duration) ∧
    (ChallengeService.checkIn (20002 * msPerDay + 5) (some midEnrollment) (some noFastFood7d)
        [groceryTxn] 20001).write.map (fun w => w.streak) =
      some (match midEnrollment.lastCheckIn with
        | some lastCheckIn =>
          if 20001 - lastCheckIn = 1 then midEnrollment.streak + 1
          else if 20001 - lastCheckIn > 1 then 1
          else midEnrollment.streak
        | none => 1) :=
  ⟨checkIn_persisted_streak_formulas.1 threeDaysInInstant freshEnrollment noFastFood1d
      [groceryTxn] (by decide),
   checkIn_persisted_streak_formulas.2 (20002 * msPerDay + 5) midEnrollment
      (some noFastFood7d) [groceryTxn] 20001 (by decide)⟩

/-- C3: evaluating a missed gap day with an empty stored transaction list is
a true error (success = false with no rule broken), yet the dated check-in
transitions the enrollment to status failed, records the error text as the
failure reason, and reports challengeFailed — the code bug the claim
rules out. -/
theorem checkIn_gap_evaluation_error_marks_failed :
    (ChallengeService.evaluateChallenge (20002 * msPerDay + 1000) (some noFastFood7d) []
        (some 20000)).success = false ∧
    (ChallengeService.evaluateChallenge (20002 * msPerDay + 1000) (some noFastFood7d) []
        (some 20000)).ruleBroken = false ∧
    (ChallengeService.checkIn (20002 * msPerDay + 1000) (some freshEnrollment)
        (some noFastFood7d) [] 20001).challengeFailed = true ∧
    (ChallengeService.checkIn (20002 * msPerDay + 1000) (some freshEnrollment)
        (some noFastFood7d) [] 20001).write.map (fun w => w.status) = some "failed" ∧
    (ChallengeService.checkIn (20002 * msPerDay + 1000) (some freshEnrollment)
        (some noFastFood7d) [] 20001).write.map (fun w => w.failureReason) =
      some (some "No transactions found. Please sync your transactions first.") :=
  ⟨by decide, by decide, by decide, by decide, by decide⟩

/-- C6: a check-in for a date strictly later than today minus the 1-day
settlement lag, on an existing non-failed enrollment, is rejected with the
too-early error result: success is false, the message is the too-early
message, no enrollment state is written and no evaluation is performed. -/
theorem checkIn_settlement_lag_rejected (nowMs : Int) (data : ChallengeData)
    (challengeTemplate? : Option ChallengeTemplate) (transactions : List Transaction)
    (date : Int) (hActive : data.status ≠ "failed")
    (hLag : date > toIsoDate (nowMs - 1 * msPerDay)) :
    ChallengeService.checkIn nowMs (some data) challengeTemplate? transactions date =
      { success := false, message := ChallengeService.tooEarlyMessage date } := by
  simp only [ChallengeService.checkIn]
  rw [if_neg hActive, if_pos hLag]

/-- C6 witness: the rejection at a concrete attempt to confirm the current
day itself. -/
theorem checkIn_settlement_lag_rejected_witness :
    ChallengeService.checkIn noonOfJoinDay (some freshEnrollment) (some noFastFood7d)
        [groceryTxn] 20000 =
      { success := false, message := ChallengeService.tooEarlyMessage 20000 } :=
  checkIn_settlement_lag_rejected noonOfJoinDay freshEnrollment (some noFastFood7d)
    [groceryTxn] 20000 (by decide) (by decide)

/-- C10 counterexample: a dated check-in with an empty stored transaction
list and no gap days succeeds with streak 1 (the unsuccessful
today-evaluation is ignored because only its ruleBroken field is tested), so
a user with no synced transactions can pass a check-in. -/
theorem checkIn_empty_transactions_succeeds :
    (ChallengeService.checkIn (20001 * msPerDay) (some freshEnrollment) (some noFastFood7d)
        [] 20000).success = true ∧
    (ChallengeService.checkIn (20001 * msPerDay) (some freshEnrollment) (some noFastFood7d)
        [] 20000).message = "Check-in successful!" ∧
    (ChallengeService.checkIn (20001 * msPerDay) (some freshEnrollment) (some noFastFood7d)
        [] 20000).write.map (fun w => w.streak) = some 1 :=
  ⟨by decide, by decide, by decide⟩

/-- C10 (amended): with an empty stored transaction list, both revisions of
evaluateChallenge return the no-transactions error result for every rule
type, evaluation date and enrollment, never a verdict. -/
theorem evaluateChallenge_empty_transactions_error :
    (∀ (nowMs : Int) (template : ChallengeTemplate) (evaluationDate : Option Int),
      ChallengeService.evaluateChallenge nowMs (some template) [] evaluationDate =
        { success := false
          message := "No transactions found. Please sync your transactions first." }) ∧
    (∀ (nowMs : Int) (template : ChallengeTemplate) (challengeData? : Option ChallengeData)
        (evaluationDate : Option Int),
      Poc.evaluateChallenge nowMs (some template) [] challengeData? evaluationDate =
        { success := false
          message := "No transactions found. Please sync your transactions first." }) :=
  ⟨fun _ _ _ => rfl, fun _ _ _ _ => rfl⟩

end SaveQuest
